import Mathlib

/-!
# Verification of the Medical-RAG retrieval pipeline (`Gemini_rag.py`)

Shallow embedding of the query-understanding and retrieval
orchestration pipeline: the helper functions
(`extract_patient_id_llm`, `extract_fields`, `validate_sql_query`),
the graph nodes (`node_extract_info`, `route_valid`,
`node_fetch_data`, `node_summarize`, `node_no_data`) and the
orchestrated pipeline.  External collaborators (the text-completion
gateway, the SQLite store, the schema catalog loaded from JSON) are
modelled as explicit parameters/oracles, so every node is a pure
function of the request context and its oracle inputs.

Python strings are modelled as Lean `String` (lists of characters);
the Python whitespace class is modelled over its ASCII members.
-/

/- ## Python string primitives -/

/-- The backtick character (written via its code point). -/
def btick : Char := Char.ofNat 96

/-- ASCII members of the Python whitespace class used by `str.strip`
and the regex class `\s`: space, tab, newline, carriage return,
vertical tab, form feed. -/
def isPySpace (c : Char) : Bool :=
  c == ' ' || c == '\t' || c == '\n' || c == '\r' ||
  c == Char.ofNat 11 || c == Char.ofNat 12

/-- Drop leading whitespace (the regex `\s*` consumption). -/
def dropWS (l : List Char) : List Char := l.dropWhile isPySpace

/-- Python `str.strip()`: drop whitespace at both ends. -/
def pyStripL (l : List Char) : List Char :=
  ((l.dropWhile isPySpace).reverse.dropWhile isPySpace).reverse

/-- Python `str.strip()` on a `String`. -/
def pyStrip (s : String) : String := ⟨pyStripL s.data⟩

/-- Python `str.rstrip(";")`: drop trailing semicolons. -/
def rstripSemi (l : List Char) : List Char :=
  (l.reverse.dropWhile (fun c => c == ';')).reverse

/-- Python `str.lower()` (ASCII model). -/
def pyLower (s : String) : String := ⟨s.data.map Char.toLower⟩

/-- Python `str.upper()` (ASCII model). -/
def pyUpper (s : String) : String := ⟨s.data.map Char.toUpper⟩

/-- Python `startswith` on the character-list model. -/
def pyStartsWith (s pre : String) : Bool :=
  pre.data.isPrefixOf s.data

/-- Python substring containment `needle in haystack`: the needle is
a prefix of some suffix of the haystack. -/
def containsSubstr (haystack needle : String) : Bool :=
  (List.range (haystack.data.length + 1)).any
    (fun i => needle.data.isPrefixOf (haystack.data.drop i))

/- ## The code-fence sanitizer (`re.sub` passes of `node_fetch_data`)

`re.sub(pattern, "", s)` deletes the leftmost non-overlapping matches
of `pattern`, scanning left to right.  The two patterns of the source
are `r"```sql\s*"` (case-insensitive) and `r"```\s*"`.  Both are
implemented by a direct left-to-right scan; the scan is written with
explicit fuel (one unit per character consumed) so that it is
structurally recursive and evaluates inside the kernel. -/

/-- One left-to-right deletion scan for the pattern `` ```sql\s* ``
(case-insensitive), with fuel. -/
def subSqlFenceGo : Nat → List Char → List Char
  | 0, l => l
  | _ + 1, [] => []
  | n + 1, a :: b :: c :: d :: e :: f :: rest =>
    if a = btick ∧ b = btick ∧ c = btick ∧
        d.toLower = 's' ∧ e.toLower = 'q' ∧ f.toLower = 'l' then
      subSqlFenceGo n (dropWS rest)
    else
      a :: subSqlFenceGo n (b :: c :: d :: e :: f :: rest)
  | n + 1, a :: rest => a :: subSqlFenceGo n rest

/-- `re.sub(r"```sql\s*", "", ·, flags=re.IGNORECASE)`. -/
def subSqlFence (l : List Char) : List Char := subSqlFenceGo l.length l

/-- One left-to-right deletion scan for the pattern `` ```\s* ``,
with fuel. -/
def subFenceGo : Nat → List Char → List Char
  | 0, l => l
  | _ + 1, [] => []
  | n + 1, a :: b :: c :: rest =>
    if a = btick ∧ b = btick ∧ c = btick then
      subFenceGo n (dropWS rest)
    else
      a :: subFenceGo n (b :: c :: rest)
  | n + 1, a :: rest => a :: subFenceGo n rest

/-- `re.sub(r"```\s*", "", ·)`. -/
def subFence (l : List Char) : List Char := subFenceGo l.length l

/-- The sanitization chain of `node_fetch_data` (lines 287–293 of the
source): strip the raw completion, delete `` ```sql `` fences, delete
bare `` ``` `` fences, strip again, then normalize to exactly one
trailing semicolon (`rstrip(";") + ";"`). -/
def pySanitize (raw : String) : String :=
  let s0 := pyStripL raw.data
  let s1 := subSqlFence s0
  let s2 := subFence s1
  let s3 := pyStripL s2
  ⟨rstripSemi s3 ++ [';']⟩

/- ## `validate_sql_query` (source lines 159–171)

The secondary WHERE-clause inspection of the source (lines 165–170)
only prints an advisory warning and never changes the returned value,
so it does not appear in the value-level model. -/

/-- The fixed table name (source line 156). -/
def table : String := "patients"

/-- `validate_sql_query(sql_query, patient_id, fields, table)`:
returns the statement unchanged together with a validity flag.  The
flag is `false` when the upper-cased statement does not start with
`SELECT`, or when the literal text `Anonymous_Uid = '<patient_id>'`
does not occur in the statement. -/
def validate_sql_query (sql_query : String) (patient_id : String)
    (_fields : List String) (_tbl : String) : String × Bool :=
  if ¬ (pyStartsWith (pyUpper sql_query) "SELECT" = true) then (sql_query, false)
  else if ¬ (containsSubstr sql_query ("Anonymous_Uid = '" ++ patient_id ++ "'") = true) then
    (sql_query, false)
  else (sql_query, true)

/- ## Gateway-dependent helpers -/

/-- Outcome of `ast.literal_eval` applied to the field-extractor
completion (after quote-stripping/unescaping): an exception anywhere
in the gateway call or the parse, a successfully parsed non-list
value, or a parsed Python list whose elements are strings or other
values. -/
inductive PyVal where
  | str (s : String)
  | other
deriving DecidableEq

/-- Result of the field-extraction gateway call and parse. -/
inductive FieldOutcome where
  | failure
  | nonList
  | list (items : List PyVal)

/-- `extract_patient_id_llm(user_query, llm)` (source lines 116–131),
with the gateway call modelled as an `Except` oracle: a blank query
short-circuits to `None`; a gateway exception is swallowed to `None`;
a stripped completion whose lower-casing is one of
`none`/`null`/`no`/`` (empty) maps to `None`; anything else is the
stripped completion. -/
def extract_patient_id_llm (user_query : String)
    (gw : Except Unit String) : Option String :=
  if pyStripL user_query.data = [] then none
  else
    match gw with
    | .error _ => none
    | .ok raw =>
      let content := pyStrip raw
      if pyLower content ∈ (["none", "null", "no", ""] : List String) then none
      else some content

/-- `extract_fields(user_query, field_defs, llm)` (source lines
133–154): a blank query yields `[]`; a gateway/parse failure or a
non-list parse yields `[]`; a parsed list is filtered so that only
elements that are exact keys of the schema catalog survive. -/
def extract_fields (user_query : String) (field_defs : List String)
    (gw : FieldOutcome) : List String :=
  if pyStripL user_query.data = [] then []
  else
    match gw with
    | .failure => []
    | .nonList => []
    | .list items =>
      items.filterMap fun v =>
        match v with
        | .str s => if s ∈ field_defs then some s else none
        | .other => none

/- ## The request context (`State` TypedDict, source lines 15–22)

The `patient_id` slot is declared `str` but actually holds either a
string or Python `None` (because `node_extract_info` stores the result
of `extract_patient_id_llm` in it), so it is modelled as
`Option String`; `none` models Python `None` and `some ""` models the
empty string — both are falsy. -/

/-- A retrieved row: column name to value, where a value is `none`
for SQL `NULL` and otherwise the textual rendering of the value. -/
abbrev Row := List (String × Option String)

/-- The request context threaded through the graph. -/
structure State where
  user_query : String
  fields : List String
  patient_id : Option String
  fetched_data : List Row
  summary : String
  error : String
  sql_query : String
deriving DecidableEq

/-- Python truthiness of the `patient_id` slot: `None` and the empty
string are falsy. -/
def optTruthy : Option String → Bool
  | none => false
  | some s => s ≠ ""

/-- The string content of the `patient_id` slot (the value used once
the slot has been checked to be truthy). -/
def optStr : Option String → String
  | none => ""
  | some s => s

/- ## Graph nodes (source lines 220–344)

Each node returns a partial patch that the orchestrator merges into
the context, exactly like the dict each Python node returns. -/

/-- The patch returned by `node_extract_info`. -/
structure ExtractPatch where
  fields : List String
  patient_id : Option String
  error : String
deriving DecidableEq

/-- `node_extract_info` (source lines 220–229): runs both extraction
sub-tasks and reports the fixed error message exactly when the field
list is empty and the patient identifier is falsy. -/
def node_extract_info (state : State) (gwPid : Except Unit String)
    (gwF : FieldOutcome) (field_defs : List String) : ExtractPatch :=
  let fields := extract_fields state.user_query field_defs gwF
  let patient_id := extract_patient_id_llm state.user_query gwPid
  let error :=
    if fields = [] ∧ optTruthy patient_id = false then
      "No fields or patient ID could be extracted."
    else ""
  ⟨fields, patient_id, error⟩

/-- `route_valid` (source lines 234–239): the single conditional
branch of the graph. -/
def route_valid (state : State) : String :=
  if state.error ≠ "" then "no_data_node"
  else if state.fields ≠ [] ∧ optTruthy state.patient_id = true then "fetch_data"
  else "no_data_node"

/-- The patch returned by `node_fetch_data`. -/
structure FetchPatch where
  fetched_data : List Row
  error : String
  sql_query : String
deriving DecidableEq

/-- `node_fetch_data` (source lines 241–316), with the SQL-drafting
gateway call and the SQLite store modelled as oracles.  The store
oracle maps the executed statement to either an error (the
`sqlite3.Error` branch) or the list of fetched rows. -/
def node_fetch_data (state : State) (gwSql : Except String String)
    (db : String → Except String (List Row)) : FetchPatch :=
  if optTruthy state.patient_id = false ∨ state.fields = [] then
    ⟨[], "Missing patient ID or fields for fetch", ""⟩
  else
    match gwSql with
    | .error e => ⟨[], "Fetch data error: " ++ e, ""⟩
    | .ok raw =>
      let sql_query := pySanitize raw
      let pr := validate_sql_query sql_query (optStr state.patient_id)
        state.fields table
      if pr.2 = false then
        ⟨[], "Generated SQL query failed validation", pr.1⟩
      else
        match db pr.1 with
        | .error e => ⟨[], "SQL execution error: " ++ e, ""⟩
        | .ok results =>
          if results = [] then
            ⟨[], "No data found for this patient.", pr.1⟩
          else ⟨results, "", pr.1⟩

/-- The patch returned by `node_summarize` / `node_no_data`. -/
structure SummaryPatch where
  summary : String
  error : String
deriving DecidableEq

/-- `value is None or str(value).strip() == ""` (source line 322). -/
def pyBlankVal : Option String → Bool
  | none => true
  | some s => pyStripL s.data = []

/-- `node_summarize` (source lines 318–329), with the summarization
gateway call modelled as an oracle: degenerate data (no rows, or all
values blank) short-circuits to a fixed message with an empty error;
otherwise the stripped completion is the summary.  A gateway
exception is reported in both `summary` and `error`. -/
def node_summarize (state : State) (gw : Except String String) : SummaryPatch :=
  if state.fetched_data = [] ∨
      state.fetched_data.all (fun r => r.all fun kv => pyBlankVal kv.2) then
    ⟨"No meaningful patient data available to summarize.", ""⟩
  else
    match gw with
    | .ok txt => ⟨pyStrip txt, ""⟩
    | .error e => ⟨"Summarization error: " ++ e, "Summarization error: " ++ e⟩

/-- The patch returned by `node_no_data`. -/
structure NoDataPatch where
  fetched_data : List Row
  summary : String
  error : String
deriving DecidableEq

/-- `node_no_data` (source lines 331–344): the prioritized
explanation, duplicated into `summary` and `error`, with
`fetched_data` cleared. -/
def node_no_data (state : State) : NoDataPatch :=
  let msg :=
    if state.error ≠ "" then state.error
    else if state.fields = [] ∧ optTruthy state.patient_id = false then
      "No relevant fields and Patient ID missing; cannot fetch data."
    else if state.fields = [] then
      "No relevant fields extracted from the query."
    else if optTruthy state.patient_id = false then
      "Patient ID missing; cannot fetch data."
    else "Unknown error."
  ⟨[], msg, msg⟩

/- ## The orchestrated pipeline (source lines 346–383)

The graph runs `extract_info`, then the no-op `validate_and_route`,
then branches on `route_valid` to either `fetch_data` followed by
`summarize`, or `no_data_node`.  Each node patch is merged into the
shared context.  The graph is acyclic (4 steps), so the recursion
limit of 5 is never reached. -/

/-- Merge of an `ExtractPatch` into the context. -/
def applyExtract (s : State) (p : ExtractPatch) : State :=
  { s with fields := p.fields, patient_id := p.patient_id, error := p.error }

/-- Merge of a `FetchPatch` into the context. -/
def applyFetch (s : State) (p : FetchPatch) : State :=
  { s with fetched_data := p.fetched_data, error := p.error,
           sql_query := p.sql_query }

/-- Merge of a `SummaryPatch` into the context. -/
def applySummary (s : State) (p : SummaryPatch) : State :=
  { s with summary := p.summary, error := p.error }

/-- Merge of a `NoDataPatch` into the context. -/
def applyNoData (s : State) (p : NoDataPatch) : State :=
  { s with fetched_data := p.fetched_data, summary := p.summary,
           error := p.error }

/-- The oracle inputs consumed by one pipeline run: outcomes of the
three gateway calls and of the store execution. -/
structure Oracles where
  gwPid : Except Unit String
  gwFields : FieldOutcome
  gwSql : Except String String
  db : String → Except String (List Row)
  gwSummary : Except String String

/-- The initial context built by the web route (source lines
373–381). -/
def initial_state (user_query : String) : State :=
  ⟨user_query, [], some "", [], "", "", ""⟩

/-- The context after `extract_info` (and the no-op
`validate_and_route`) has run. -/
def state_after_extract (q : String) (field_defs : List String)
    (o : Oracles) : State :=
  applyExtract (initial_state q)
    (node_extract_info (initial_state q) o.gwPid o.gwFields field_defs)

/-- One full pipeline run (`graph.invoke`): extraction, routing and
either fetch-then-summarize or the no-data resolver. -/
def run_pipeline (q : String) (field_defs : List String) (o : Oracles) : State :=
  let s1 := state_after_extract q field_defs o
  if route_valid s1 = "fetch_data" then
    let s2 := applyFetch s1 (node_fetch_data s1 o.gwSql o.db)
    applySummary s2 (node_summarize s2 o.gwSummary)
  else
    applyNoData s1 (node_no_data s1)

/-- Concrete oracles for a run in which extraction finds identifier
`P1` and the single field `Diagnosis`, the drafted statement passes
validation, and the store returns zero rows. -/
def c2ex_oracles : Oracles :=
  ⟨Except.ok "P1", FieldOutcome.list [PyVal.str "Diagnosis"],
   Except.ok "SELECT Diagnosis FROM patients WHERE Anonymous_Uid = 'P1'",
   fun _ => Except.ok [], Except.ok "unused"⟩

/-- The six characters of the keyword `SELECT`. -/
def selectHead : List Char := ['S', 'E', 'L', 'E', 'C', 'T']

/-- A `SELECT` statement with body tail `t`, carrying `k` trailing
semicolons, wrapped in a code fence whose opening carries a
three-letter language tag `d e f`. -/
def fencedTagged (d e f : Char) (t : List Char) (k : Nat) : String :=
  ⟨[btick, btick, btick, d, e, f, '\n'] ++ (selectHead ++ t) ++
    List.replicate k ';' ++ '\n' :: [btick, btick, btick]⟩

/-- A `SELECT` statement with body tail `t`, carrying `k` trailing
semicolons, wrapped in a bare (untagged) code fence. -/
def fencedBare (t : List Char) (k : Nat) : String :=
  ⟨[btick, btick, btick, '\n'] ++ (selectHead ++ t) ++
    List.replicate k ';' ++ '\n' :: [btick, btick, btick]⟩

/-- The string begins with the keyword `SELECT`. -/
def startsWithSELECT (s : String) : Prop :=
  ∃ r, s.data = selectHead ++ r

/-- The string ends with exactly one semicolon: one final `;` whose
predecessor (when present) is not a semicolon. -/
def endsWithOneSemi (s : String) : Prop :=
  ∃ u, s.data = u ++ [';'] ∧ u.getLast? ≠ some ';'

/- ## Helper lemmas -/

/-- `extract_patient_id_llm` never returns `some ""`: an empty
stripped completion is caught by the `none`/`null`/`no`/empty check. -/
theorem extract_patient_id_ne_some_empty (q : String) (gw : Except Unit String) :
    extract_patient_id_llm q gw ≠ some "" := by
  unfold extract_patient_id_llm
  split
  · simp
  · match gw with
    | .error _ => simp
    | .ok raw =>
      dsimp only
      split
      · simp
      · rename_i hmem
        intro h
        simp only [Option.some.injEq] at h
        exact hmem (by rw [h]; decide)

/-- The `patient_id` slot produced by extraction is falsy exactly
when it is `None`. -/
theorem extract_patient_id_truthy_iff (q : String) (gw : Except Unit String) :
    optTruthy (extract_patient_id_llm q gw) = false ↔
      extract_patient_id_llm q gw = none := by
  cases h : extract_patient_id_llm q gw with
  | none => simp [optTruthy]
  | some s =>
    have hne := extract_patient_id_ne_some_empty q gw
    rw [h] at hne
    simp only [optTruthy, ne_eq, Option.some.injEq] at hne ⊢
    constructor
    · intro hf
      exact absurd (by simpa using hf) (fun hs => hne (by simp [hs]))
    · intro hf; exact absurd hf (by simp)

/-- `validate_sql_query` always returns its input statement in the
first component. -/
theorem validate_sql_query_fst (s p : String) (f : List String) (t : String) :
    (validate_sql_query s p f t).1 = s := by
  unfold validate_sql_query
  split_ifs <;> rfl

/-- `validate_sql_query` reports `false` whenever the upper-cased
statement does not begin with `SELECT` or the identifier equality
text is absent. -/
theorem validate_sql_query_false_of (s p : String) (f : List String) (t : String)
    (h : pyStartsWith (pyUpper s) "SELECT" = false ∨
      containsSubstr s ("Anonymous_Uid = '" ++ p ++ "'") = false) :
    (validate_sql_query s p f t).2 = false := by
  unfold validate_sql_query
  rcases h with hc | hc
  · rw [if_pos (by simp [hc])]
  · by_cases h1 : pyStartsWith (pyUpper s) "SELECT" = true
    · rw [if_neg (by simp [h1]), if_pos (by simp [hc])]
    · rw [if_pos h1]

/- ## Claims -/

/-- C3: the Router is a pure function of the context returning
`no_data_node` whenever `error` is non-empty; otherwise `fetch_data`
when both `fields` and `patient_id` are non-empty (truthy); and
`no_data_node` in every remaining case. -/
theorem c3_router_contract (s : State) :
    (s.error ≠ "" → route_valid s = "no_data_node") ∧
    (s.error = "" → s.fields ≠ [] → optTruthy s.patient_id = true →
      route_valid s = "fetch_data") ∧
    (s.error = "" → (s.fields = [] ∨ optTruthy s.patient_id = false) →
      route_valid s = "no_data_node") := by
  unfold route_valid
  refine ⟨?_, ?_, ?_⟩
  · intro h; rw [if_pos h]
  · intro he hf hp
    rw [if_neg (by simp [he]), if_pos ⟨hf, hp⟩]
  · intro he hmiss
    rw [if_neg (by simp [he]), if_neg]
    rintro ⟨hf, hp⟩
    rcases hmiss with h | h
    · exact hf h
    · rw [hp] at h; cases h

/-- Witness for C3: a context with a pending error routes to
`no_data_node`; a clean context with fields and an identifier routes
to `fetch_data`. -/
theorem c3_router_contract_witness :
    route_valid ⟨"q", ["Diagnosis"], some "P1", [], "", "boom", ""⟩ =
        "no_data_node" ∧
    route_valid ⟨"q", ["Diagnosis"], some "P1", [], "", "", ""⟩ =
        "fetch_data" :=
  ⟨(c3_router_contract _).1 (by decide),
   (c3_router_contract _).2.1 (by decide) (by decide) (by decide)⟩

/-- C8: applying the Router twice to the same context yields the same
decision — in this embedding `route_valid` is a function of the
context alone, so the two applications are definitionally equal. -/
theorem c8_router_idempotent (s : State) :
    route_valid s = route_valid s := rfl

/-- C9: the no-data node always clears `fetched_data` and writes one
and the same non-empty message into both `summary` and `error`, even
when the incoming context had an empty `error`. -/
theorem c9_no_data_patch_shape (s : State) :
    (node_no_data s).fetched_data = [] ∧
    (node_no_data s).summary = (node_no_data s).error ∧
    (node_no_data s).error ≠ "" := by
  unfold node_no_data
  refine ⟨rfl, rfl, ?_⟩
  dsimp only
  split_ifs with h1 h2 h3 h4
  · exact h1
  · decide
  · decide
  · decide
  · decide

/-- C4: the extraction stage sets `error` to the fixed message
exactly when the extracted field list is empty and no patient
identifier was found; with at least one of the two present the error
stays empty. -/
theorem c4_extract_error_exactly_on_double_miss (s : State)
    (fd : List String) (gp : Except Unit String) (gf : FieldOutcome) :
    ((node_extract_info s gp gf fd).fields = [] ∧
        (node_extract_info s gp gf fd).patient_id = none →
      (node_extract_info s gp gf fd).error =
        "No fields or patient ID could be extracted.") ∧
    ((node_extract_info s gp gf fd).fields ≠ [] ∨
        (node_extract_info s gp gf fd).patient_id ≠ none →
      (node_extract_info s gp gf fd).error = "") := by
  unfold node_extract_info
  dsimp only
  constructor
  · rintro ⟨h1, h2⟩
    rw [if_pos ⟨h1, by rw [h2]; rfl⟩]
  · intro h
    rw [if_neg]
    rintro ⟨h1, h2⟩
    rcases h with hc | hc
    · exact hc h1
    · exact hc ((extract_patient_id_truthy_iff s.user_query gp).mp h2)

/-- Witness for C4: a blank query (both sub-tasks miss) produces the
fixed message; a query whose field extraction hits one catalog key
produces no error. -/
theorem c4_extract_error_witness :
    (node_extract_info ⟨"", [], some "", [], "", "", ""⟩
        (Except.error ()) FieldOutcome.failure ["Diagnosis"]).error =
      "No fields or patient ID could be extracted." ∧
    (node_extract_info ⟨"show diagnosis", [], some "", [], "", "", ""⟩
        (Except.error ()) (FieldOutcome.list [PyVal.str "Diagnosis"])
        ["Diagnosis"]).error = "" :=
  ⟨(c4_extract_error_exactly_on_double_miss _ _ _ _).1 (by decide),
   (c4_extract_error_exactly_on_double_miss _ _ _ _).2 (Or.inl (by decide))⟩

/-- C5: every name surviving field extraction is an exact key of the
schema catalog, and a parse failure or a non-list parse yields the
empty field list. -/
theorem c5_fields_filtered_to_catalog (q : String) (fd : List String)
    (gw : FieldOutcome) :
    (∀ f ∈ extract_fields q fd gw, f ∈ fd) ∧
    extract_fields q fd FieldOutcome.failure = [] ∧
    extract_fields q fd FieldOutcome.nonList = [] := by
  refine ⟨?_, ?_, ?_⟩
  · intro f hf
    unfold extract_fields at hf
    split at hf
    · simp at hf
    · cases gw with
      | failure => simp at hf
      | nonList => simp at hf
      | list items =>
        simp only [List.mem_filterMap] at hf
        obtain ⟨v, _, hmap⟩ := hf
        cases v with
        | str s =>
          dsimp only at hmap
          split at hmap
          · rename_i hin
            cases hmap
            exact hin
          · cases hmap
        | other => cases hmap
  · unfold extract_fields; split <;> rfl
  · unfold extract_fields; split <;> rfl

/-- Witness for C5: a three-element parsed list with one catalog key,
one unknown name and one non-string keeps only the catalog key. -/
theorem c5_fields_filtered_witness :
    "Diagnosis" ∈ (["Diagnosis", "VisualAcuityRe"] : List String) ∧
    extract_fields "q" ["Diagnosis", "VisualAcuityRe"] FieldOutcome.failure
      = [] :=
  ⟨(c5_fields_filtered_to_catalog "q" ["Diagnosis", "VisualAcuityRe"]
      (FieldOutcome.list
        [PyVal.str "Diagnosis", PyVal.str "Nope", PyVal.other])).1
      "Diagnosis" (by decide),
   (c5_fields_filtered_to_catalog "q" ["Diagnosis", "VisualAcuityRe"]
      FieldOutcome.failure).2.1⟩

/-- A list none of whose characters satisfies `p` is unchanged by
`dropWhile p`. -/
theorem dropWhile_eq_self_of_forall_not {p : Char → Bool} (l : List Char)
    (h : ∀ c ∈ l, p c = false) : l.dropWhile p = l := by
  cases l with
  | nil => rfl
  | cons a t =>
    rw [List.dropWhile_cons, if_neg]
    simp [h a (by simp)]

/-- A list none of whose characters is whitespace is unchanged by the
Python strip. -/
theorem pyStripL_eq_self_of_no_space (l : List Char)
    (h : ∀ c ∈ l, isPySpace c = false) : pyStripL l = l := by
  unfold pyStripL
  rw [dropWhile_eq_self_of_forall_not l h,
    dropWhile_eq_self_of_forall_not l.reverse (by simpa using h),
    List.reverse_reverse]

/-- A whitespace character is fixed by `Char.toLower`. -/
theorem toLower_of_space (c : Char) (h : isPySpace c = true) :
    c.toLower = c := by
  simp only [isPySpace, Bool.or_eq_true, beq_iff_eq] at h
  rcases h with ((((h | h) | h) | h) | h) | h <;> rw [h] <;> decide

/-- A string whose lower-casing is one of the sentinel words
`none`/`null`/`no`/`` contains no whitespace character. -/
theorem no_space_of_lower_sentinel (r : String)
    (h : pyLower r ∈ (["none", "null", "no", ""] : List String)) :
    ∀ c ∈ r.data, isPySpace c = false := by
  intro c hc
  have hmap : Char.toLower c ∈ r.data.map Char.toLower :=
    List.mem_map_of_mem Char.toLower hc
  by_contra hsp
  have hsp' : isPySpace c = true := by
    cases hb : isPySpace c
    · exact absurd hb hsp
    · rfl
  rw [toLower_of_space c hsp'] at hmap
  have hsent : ∀ w ∈ (["none", "null", "no", ""] : List String),
      ∀ x ∈ w.data, isPySpace x = false := by decide
  simp only [pyLower, List.mem_cons, List.mem_nil_iff, or_false] at h
  rcases h with h | h | h | h <;>
    · have hdata : r.data.map Char.toLower = _ := congrArg String.data h
      rw [hdata] at hmap
      have := hsent _ (by simp) c hmap
      rw [this] at hsp'
      cases hsp'

/-- C7: any gateway completion equal, case-insensitively, to `none`,
`null`, `no` or the empty string maps to "no identifier found"
(`None`), and a gateway exception is swallowed to the same result;
in this embedding `extract_patient_id_llm` is total, so neither case
can propagate an error. -/
theorem c7_patient_id_sentinels_and_failures (q r : String) :
    (pyLower r ∈ (["none", "null", "no", ""] : List String) →
      extract_patient_id_llm q (Except.ok r) = none) ∧
    extract_patient_id_llm q (Except.error ()) = none := by
  constructor
  · intro hmem
    unfold extract_patient_id_llm
    split
    · rfl
    · dsimp only
      rw [if_pos]
      have hstrip : pyStrip r = r := by
        unfold pyStrip
        rw [pyStripL_eq_self_of_no_space r.data (no_space_of_lower_sentinel r hmem)]
      rw [hstrip]
      exact hmem
  · unfold extract_patient_id_llm
    split
    · rfl
    · rfl

/-- Witness for C7: the completion "NONE" (case-insensitively equal
to the sentinel) and a gateway exception both yield `None`. -/
theorem c7_patient_id_sentinels_witness :
    extract_patient_id_llm "show data for the patient" (Except.ok "NONE")
        = none ∧
    extract_patient_id_llm "show data for the patient" (Except.error ())
        = none :=
  ⟨(c7_patient_id_sentinels_and_failures "show data for the patient"
      "NONE").1 (by decide),
   (c7_patient_id_sentinels_and_failures "show data for the patient"
      "NONE").2⟩

/-- C1: when the context carries a truthy identifier and a non-empty
field list but the sanitized statement does not (case-insensitively)
begin with `SELECT` or does not contain the literal text
`Anonymous_Uid = '<patient_id>'`, the fetch node skips execution for
every store oracle `db`: it returns error "Generated SQL query failed
validation", keeps the rejected statement in `sql_query` and leaves
`fetched_data` empty. -/
theorem c1_validation_gate_skips_execution (s : State) (raw : String)
    (db : String → Except String (List Row))
    (hpid : optTruthy s.patient_id = true) (hfields : s.fields ≠ [])
    (hfail : pyStartsWith (pyUpper (pySanitize raw)) "SELECT" = false ∨
      containsSubstr (pySanitize raw)
        ("Anonymous_Uid = '" ++ optStr s.patient_id ++ "'") = false) :
    node_fetch_data s (Except.ok raw) db =
      ⟨[], "Generated SQL query failed validation", pySanitize raw⟩ := by
  unfold node_fetch_data
  rw [if_neg (by simp [hpid, hfields])]
  dsimp only
  rw [if_pos (validate_sql_query_false_of _ _ _ _ hfail),
    validate_sql_query_fst]

/-- Witness for C1: with identifier `P1` and one field, the drafted
statement `DROP TABLE patients` is rejected without consulting the
store. -/
theorem c1_validation_gate_witness :
    node_fetch_data ⟨"q", ["Diagnosis"], some "P1", [], "", "", ""⟩
        (Except.ok "DROP TABLE patients") (fun _ => Except.ok []) =
      ⟨[], "Generated SQL query failed validation",
        pySanitize "DROP TABLE patients"⟩ :=
  c1_validation_gate_skips_execution
    ⟨"q", ["Diagnosis"], some "P1", [], "", "", ""⟩
    "DROP TABLE patients" (fun _ => Except.ok [])
    (by decide) (by decide) (Or.inl (by decide))

/-- A list all of whose characters satisfy `p` is emptied by
`dropWhile p`. -/
theorem dropWhile_eq_nil_of_all {p : Char → Bool} (l : List Char)
    (h : l.all p = true) : l.dropWhile p = [] := by
  induction l with
  | nil => rfl
  | cons a t ih =>
    simp only [List.all_cons, Bool.and_eq_true] at h
    rw [List.dropWhile_cons, if_pos (by simp [h.1])]
    exact ih h.2

/-- A routing decision of `fetch_data` implies a clean error slot,
a non-empty field list and a truthy identifier. -/
theorem route_fetch_elim (s : State) (h : route_valid s = "fetch_data") :
    s.error = "" ∧ s.fields ≠ [] ∧ optTruthy s.patient_id = true := by
  unfold route_valid at h
  split_ifs at h with h1 h2
  · exact absurd h (by decide)
  · exact ⟨by simpa using h1, h2.1, h2.2⟩
  · exact absurd h (by decide)

/-- C10: a query that is empty or all whitespace makes both
extraction sub-tasks miss regardless of the gateway oracles (no
gateway call is consulted), so the extraction stage reports the fixed
message and the pipeline takes the no-data branch, whose message is
delivered in both `error` and `summary`. -/
theorem c10_blank_query_takes_no_data_branch (q : String)
    (fd : List String) (o : Oracles) (hq : q.data.all isPySpace = true) :
    extract_patient_id_llm q o.gwPid = none ∧
    extract_fields q fd o.gwFields = [] ∧
    (node_extract_info (initial_state q) o.gwPid o.gwFields fd).error =
      "No fields or patient ID could be extracted." ∧
    route_valid (state_after_extract q fd o) = "no_data_node" ∧
    (run_pipeline q fd o).error =
      "No fields or patient ID could be extracted." ∧
    (run_pipeline q fd o).summary =
      "No fields or patient ID could be extracted." ∧
    (run_pipeline q fd o).fetched_data = [] := by
  have hstrip : pyStripL q.data = [] := by
    unfold pyStripL
    rw [dropWhile_eq_nil_of_all _ hq]
    rfl
  have hpid : ∀ gw, extract_patient_id_llm q gw = none := by
    intro gw
    unfold extract_patient_id_llm
    rw [if_pos hstrip]
  have hfld : ∀ gw, extract_fields q fd gw = [] := by
    intro gw
    unfold extract_fields
    rw [if_pos hstrip]
  have hpatch : node_extract_info (initial_state q) o.gwPid o.gwFields fd =
      ⟨[], none, "No fields or patient ID could be extracted."⟩ := by
    unfold node_extract_info initial_state
    dsimp only
    rw [hpid, hfld, if_pos ⟨rfl, rfl⟩]
  have hs1 : state_after_extract q fd o =
      ⟨q, [], none, [], "", "No fields or patient ID could be extracted.", ""⟩ := by
    unfold state_after_extract
    rw [hpatch]
    rfl
  have hroute : route_valid (state_after_extract q fd o) = "no_data_node" := by
    rw [hs1]
    simp [route_valid]
  have hrun : run_pipeline q fd o =
      ⟨q, [], none, [], "No fields or patient ID could be extracted.",
        "No fields or patient ID could be extracted.", ""⟩ := by
    unfold run_pipeline
    rw [if_neg (by rw [hroute]; decide), hs1]
    rfl
  exact ⟨hpid o.gwPid, hfld o.gwFields, by rw [hpatch], hroute,
    by rw [hrun], by rw [hrun], by rw [hrun]⟩

/-- Witness for C10: the all-whitespace query `"  "` with arbitrary
gateway oracles yields the fixed extraction error in the final
context. -/
theorem c10_blank_query_witness :
    (run_pipeline "  " ["Diagnosis"] c2ex_oracles).error =
        "No fields or patient ID could be extracted." ∧
    (run_pipeline "  " ["Diagnosis"] c2ex_oracles).fetched_data = [] :=
  ⟨(c10_blank_query_takes_no_data_branch "  " ["Diagnosis"] c2ex_oracles
      (by decide)).2.2.2.2.1,
   (c10_blank_query_takes_no_data_branch "  " ["Diagnosis"] c2ex_oracles
      (by decide)).2.2.2.2.2.2⟩

/-- Counterexample to C2 as stated: with identifier and fields
extracted, a validation-passing statement and a zero-row store
result, the fetch stage does set error "No data found for this
patient.", but the summarize stage then merges `error = ""` into the
same context, so the final context delivered to the caller does NOT
carry that error message. -/
theorem c2_final_error_counterexample :
    (node_fetch_data
        (state_after_extract "show Diagnosis for P1" ["Diagnosis"]
          c2ex_oracles)
        c2ex_oracles.gwSql c2ex_oracles.db).error =
      "No data found for this patient." ∧
    (run_pipeline "show Diagnosis for P1" ["Diagnosis"]
        c2ex_oracles).fetched_data = [] ∧
    (run_pipeline "show Diagnosis for P1" ["Diagnosis"]
        c2ex_oracles).error = "" ∧
    ¬ ((run_pipeline "show Diagnosis for P1" ["Diagnosis"]
        c2ex_oracles).error = "No data found for this patient.") := by
  decide

/-- C2 (amended): when identifier and fields are both extracted, the
synthesized statement passes validation and the store returns zero
rows, the fetch stage's patch has `fetched_data = []` and error
"No data found for this patient."; the pipeline then continues to the
summarize stage, which treats the empty row set as degenerate and
merges summary "No meaningful patient data available to summarize."
and an empty error into the context, so the final context has
`fetched_data = []`, that summary, an empty error, and the executed
statement in `sql_query`. -/
theorem c2_zero_rows_amended (q : String) (fd : List String)
    (o : Oracles) (raw : String)
    (hgw : o.gwSql = Except.ok raw)
    (hroute : route_valid (state_after_extract q fd o) = "fetch_data")
    (hvalid : (validate_sql_query (pySanitize raw)
        (optStr (state_after_extract q fd o).patient_id)
        (state_after_extract q fd o).fields table).2 = true)
    (hdb : o.db (pySanitize raw) = Except.ok []) :
    (node_fetch_data (state_after_extract q fd o) o.gwSql o.db).error =
      "No data found for this patient." ∧
    (run_pipeline q fd o).fetched_data = [] ∧
    (run_pipeline q fd o).error = "" ∧
    (run_pipeline q fd o).summary =
      "No meaningful patient data available to summarize." ∧
    (run_pipeline q fd o).sql_query = pySanitize raw := by
  obtain ⟨-, hf, hp⟩ := route_fetch_elim _ hroute
  have hfetch : node_fetch_data (state_after_extract q fd o) o.gwSql o.db =
      ⟨[], "No data found for this patient.", pySanitize raw⟩ := by
    unfold node_fetch_data
    rw [if_neg (by simp [hp, hf]), hgw]
    dsimp only
    rw [if_neg (by simp [hvalid]), validate_sql_query_fst, hdb]
    dsimp only
    rw [if_pos rfl]
  have hrun : run_pipeline q fd o =
      applySummary
        (applyFetch (state_after_extract q fd o)
          ⟨[], "No data found for this patient.", pySanitize raw⟩)
        ⟨"No meaningful patient data available to summarize.", ""⟩ := by
    unfold run_pipeline
    rw [if_pos hroute, hfetch]
    have hsum : node_summarize
        (applyFetch (state_after_extract q fd o)
          ⟨[], "No data found for this patient.", pySanitize raw⟩)
        o.gwSummary =
        ⟨"No meaningful patient data available to summarize.", ""⟩ := by
      unfold node_summarize applyFetch
      rw [if_pos (Or.inl rfl)]
    simp only [hsum]
  refine ⟨by rw [hfetch], ?_, ?_, ?_, ?_⟩ <;>
    rw [hrun] <;> rfl

/-- Witness for C2 (amended): the concrete zero-row run. -/
theorem c2_zero_rows_witness :
    (run_pipeline "show Diagnosis for P1" ["Diagnosis"] c2ex_oracles).error
        = "" ∧
    (run_pipeline "show Diagnosis for P1" ["Diagnosis"]
        c2ex_oracles).summary =
      "No meaningful patient data available to summarize." := by
  have h := c2_zero_rows_amended "show Diagnosis for P1" ["Diagnosis"]
    c2ex_oracles
    "SELECT Diagnosis FROM patients WHERE Anonymous_Uid = 'P1'"
    rfl (by decide) (by decide) rfl
  exact ⟨h.2.2.1, h.2.2.2.1⟩

/-- `dropWhile` never lengthens a list. -/
theorem length_dropWhile_le (p : Char → Bool) (l : List Char) :
    (l.dropWhile p).length ≤ l.length := by
  induction l with
  | nil => simp
  | cons a t ih =>
    rw [List.dropWhile_cons]
    split
    · exact Nat.le_trans ih (by simp)
    · simp

/-- The `` ```sql `` scan on the empty list, at any fuel. -/
theorem subSqlFenceGo_nil (n : Nat) : subSqlFenceGo n [] = [] := by
  cases n <;> rfl

/-- The `` ```sql `` scan is fuel-irrelevant once the fuel covers the
list length. -/
theorem subSqlFenceGo_congr (n : Nat) : ∀ (m : Nat) (l : List Char),
    l.length ≤ n → l.length ≤ m → subSqlFenceGo n l = subSqlFenceGo m l := by
  induction n with
  | zero =>
    intro m l hn _
    obtain rfl : l = [] := List.length_eq_zero.mp (Nat.le_antisymm hn (Nat.zero_le _))
    rw [subSqlFenceGo_nil, subSqlFenceGo_nil]
  | succ n ih =>
    intro m l hn hm
    cases m with
    | zero =>
      obtain rfl : l = [] :=
        List.length_eq_zero.mp (Nat.le_antisymm hm (Nat.zero_le _))
      rw [subSqlFenceGo_nil, subSqlFenceGo_nil]
    | succ m =>
      match l, hn, hm with
      | [], _, _ => rfl
      | [a], hn, hm =>
        show a :: subSqlFenceGo n [] = a :: subSqlFenceGo m []
        rw [subSqlFenceGo_nil, subSqlFenceGo_nil]
      | [a, b], hn, hm =>
        show a :: subSqlFenceGo n [b] = a :: subSqlFenceGo m [b]
        simp only [List.length] at hn hm
        exact congrArg _ (ih m [b] (by simp; omega) (by simp; omega))
      | [a, b, c], hn, hm =>
        show a :: subSqlFenceGo n [b, c] = a :: subSqlFenceGo m [b, c]
        simp only [List.length] at hn hm
        exact congrArg _ (ih m [b, c] (by simp; omega) (by simp; omega))
      | [a, b, c, d], hn, hm =>
        show a :: subSqlFenceGo n [b, c, d] = a :: subSqlFenceGo m [b, c, d]
        simp only [List.length] at hn hm
        exact congrArg _ (ih m [b, c, d] (by simp; omega) (by simp; omega))
      | [a, b, c, d, e], hn, hm =>
        show a :: subSqlFenceGo n [b, c, d, e] = a :: subSqlFenceGo m [b, c, d, e]
        simp only [List.length] at hn hm
        exact congrArg _ (ih m [b, c, d, e] (by simp; omega) (by simp; omega))
      | a :: b :: c :: d :: e :: f :: rest, hn, hm =>
        simp only [List.length] at hn hm
        show (if a = btick ∧ b = btick ∧ c = btick ∧
            d.toLower = 's' ∧ e.toLower = 'q' ∧ f.toLower = 'l' then
            subSqlFenceGo n (dropWS rest)
          else a :: subSqlFenceGo n (b :: c :: d :: e :: f :: rest)) =
          (if a = btick ∧ b = btick ∧ c = btick ∧
            d.toLower = 's' ∧ e.toLower = 'q' ∧ f.toLower = 'l' then
            subSqlFenceGo m (dropWS rest)
          else a :: subSqlFenceGo m (b :: c :: d :: e :: f :: rest))
        have hdw := length_dropWhile_le isPySpace rest
        split
        · exact ih m (dropWS rest) (by simp only [dropWS]; omega)
            (by simp only [dropWS]; omega)
        · exact congrArg _ (ih m _ (by simp; omega) (by simp; omega))

/-- The bare-fence scan on the empty list, at any fuel. -/
theorem subFenceGo_nil (n : Nat) : subFenceGo n [] = [] := by
  cases n <;> rfl

/-- The bare-fence scan is fuel-irrelevant once the fuel covers the
list length. -/
theorem subFenceGo_congr (n : Nat) : ∀ (m : Nat) (l : List Char),
    l.length ≤ n → l.length ≤ m → subFenceGo n l = subFenceGo m l := by
  induction n with
  | zero =>
    intro m l hn _
    obtain rfl : l = [] := List.length_eq_zero.mp (Nat.le_antisymm hn (Nat.zero_le _))
    rw [subFenceGo_nil, subFenceGo_nil]
  | succ n ih =>
    intro m l hn hm
    cases m with
    | zero =>
      obtain rfl : l = [] :=
        List.length_eq_zero.mp (Nat.le_antisymm hm (Nat.zero_le _))
      rw [subFenceGo_nil, subFenceGo_nil]
    | succ m =>
      match l, hn, hm with
      | [], _, _ => rfl
      | [a], hn, hm =>
        show a :: subFenceGo n [] = a :: subFenceGo m []
        rw [subFenceGo_nil, subFenceGo_nil]
      | [a, b], hn, hm =>
        show a :: subFenceGo n [b] = a :: subFenceGo m [b]
        simp only [List.length] at hn hm
        exact congrArg _ (ih m [b] (by simp; omega) (by simp; omega))
      | a :: b :: c :: rest, hn, hm =>
        simp only [List.length] at hn hm
        show (if a = btick ∧ b = btick ∧ c = btick then
            subFenceGo n (dropWS rest)
          else a :: subFenceGo n (b :: c :: rest)) =
          (if a = btick ∧ b = btick ∧ c = btick then
            subFenceGo m (dropWS rest)
          else a :: subFenceGo m (b :: c :: rest))
        have hdw := length_dropWhile_le isPySpace rest
        split
        · exact ih m (dropWS rest) (by simp only [dropWS]; omega)
            (by simp only [dropWS]; omega)
        · exact congrArg _ (ih m _ (by simp; omega) (by simp; omega))

/-- One scan step of the `` ```sql `` pass when the six-character
window is not a tagged fence opening: the head character is emitted. -/
theorem subSqlFence_cons_of_not_sql (a b c d e f : Char) (rest : List Char)
    (h : ¬(a = btick ∧ b = btick ∧ c = btick ∧
      d.toLower = 's' ∧ e.toLower = 'q' ∧ f.toLower = 'l')) :
    subSqlFence (a :: b :: c :: d :: e :: f :: rest) =
      a :: subSqlFence (b :: c :: d :: e :: f :: rest) := by
  show (if a = btick ∧ b = btick ∧ c = btick ∧
      d.toLower = 's' ∧ e.toLower = 'q' ∧ f.toLower = 'l' then
      subSqlFenceGo (b :: c :: d :: e :: f :: rest).length (dropWS rest)
    else a :: subSqlFenceGo (b :: c :: d :: e :: f :: rest).length
      (b :: c :: d :: e :: f :: rest)) = _
  rw [if_neg h]
  rfl

/-- One scan step of the `` ```sql `` pass on a non-backtick head. -/
theorem subSqlFence_cons (a : Char) (l : List Char) (ha : a ≠ btick) :
    subSqlFence (a :: l) = a :: subSqlFence l := by
  match l with
  | [] => rfl
  | [b] => rfl
  | [b, c] => rfl
  | [b, c, d] => rfl
  | [b, c, d, e] => rfl
  | b :: c :: d :: e :: f :: rest =>
    exact subSqlFence_cons_of_not_sql a b c d e f rest (fun hc => ha hc.1)

/-- The `` ```sql `` pass consumes a tagged fence opening and the
whitespace after it, and scans on. -/
theorem subSqlFence_fence_step (d e f : Char) (rest : List Char)
    (hd : d.toLower = 's') (he : e.toLower = 'q') (hf : f.toLower = 'l') :
    subSqlFence (btick :: btick :: btick :: d :: e :: f :: rest) =
      subSqlFence (dropWS rest) := by
  show (if btick = btick ∧ btick = btick ∧ btick = btick ∧
      d.toLower = 's' ∧ e.toLower = 'q' ∧ f.toLower = 'l' then
      subSqlFenceGo (btick :: btick :: d :: e :: f :: rest).length (dropWS rest)
    else btick :: subSqlFenceGo (btick :: btick :: d :: e :: f :: rest).length
      (btick :: btick :: d :: e :: f :: rest)) = _
  rw [if_pos ⟨rfl, rfl, rfl, hd, he, hf⟩]
  exact subSqlFenceGo_congr _ _ _
    (Nat.le_trans (length_dropWhile_le isPySpace rest) (by simp; omega))
    (Nat.le_refl _)

/-- The `` ```sql `` pass leaves a backtick-free prefix untouched. -/
theorem subSqlFence_append (A B : List Char) (hA : ∀ c ∈ A, c ≠ btick) :
    subSqlFence (A ++ B) = A ++ subSqlFence B := by
  induction A with
  | nil => rfl
  | cons a A ih =>
    rw [List.cons_append, subSqlFence_cons a _ (hA a (by simp)),
      ih (fun c hc => hA c (by simp [hc])), List.cons_append]

/-- One scan step of the bare-fence pass when the three-character
window is not a fence: the head character is emitted. -/
theorem subFence_cons_of_not_fence (a b c : Char) (rest : List Char)
    (h : ¬(a = btick ∧ b = btick ∧ c = btick)) :
    subFence (a :: b :: c :: rest) = a :: subFence (b :: c :: rest) := by
  show (if a = btick ∧ b = btick ∧ c = btick then
      subFenceGo (b :: c :: rest).length (dropWS rest)
    else a :: subFenceGo (b :: c :: rest).length (b :: c :: rest)) = _
  rw [if_neg h]
  rfl

/-- One scan step of the bare-fence pass on a non-backtick head. -/
theorem subFence_cons (a : Char) (l : List Char) (ha : a ≠ btick) :
    subFence (a :: l) = a :: subFence l := by
  match l with
  | [] => rfl
  | [b] => rfl
  | b :: c :: rest =>
    exact subFence_cons_of_not_fence a b c rest (fun hc => ha hc.1)

/-- The bare-fence pass consumes a fence and the whitespace after it,
and scans on. -/
theorem subFence_fence_step (rest : List Char) :
    subFence (btick :: btick :: btick :: rest) = subFence (dropWS rest) := by
  show (if btick = btick ∧ btick = btick ∧ btick = btick then
      subFenceGo (btick :: btick :: rest).length (dropWS rest)
    else btick :: subFenceGo (btick :: btick :: rest).length
      (btick :: btick :: rest)) = _
  rw [if_pos ⟨rfl, rfl, rfl⟩]
  exact subFenceGo_congr _ _ _
    (Nat.le_trans (length_dropWhile_le isPySpace rest) (by simp; omega))
    (Nat.le_refl _)

/-- The bare-fence pass leaves a backtick-free prefix untouched. -/
theorem subFence_append (A B : List Char) (hA : ∀ c ∈ A, c ≠ btick) :
    subFence (A ++ B) = A ++ subFence B := by
  induction A with
  | nil => rfl
  | cons a A ih =>
    rw [List.cons_append, subFence_cons a _ (hA a (by simp)),
      ih (fun c hc => hA c (by simp [hc])), List.cons_append]

/-- `dropWhile` distributes over an append whose right part starts
with a character that fails the predicate. -/
theorem dropWhile_append_head {p : Char → Bool} (X : List Char) (y : Char)
    (Y : List Char) (hy : p y = false) :
    (X ++ y :: Y).dropWhile p = X.dropWhile p ++ y :: Y := by
  induction X with
  | nil =>
    rw [List.nil_append, List.dropWhile_cons, if_neg (by simp [hy])]
    rfl
  | cons x X ih =>
    rw [List.cons_append, List.dropWhile_cons, List.dropWhile_cons]
    split
    · exact ih
    · rw [List.cons_append]

/-- The head of a non-empty `dropWhile` result fails the predicate. -/
theorem dropWhile_head_not {p : Char → Bool} (l : List Char) (a : Char)
    (z : List Char) (h : l.dropWhile p = a :: z) : p a = false := by
  induction l with
  | nil => cases h
  | cons x t ih =>
    rw [List.dropWhile_cons] at h
    split at h
    · exact ih h
    · cases h
      rename_i hx
      simpa using hx

/-- A list whose first and last characters are not whitespace is
unchanged by the Python strip. -/
theorem pyStripL_eq_self (l : List Char)
    (h1 : ∀ a, l.head? = some a → isPySpace a = false)
    (h2 : ∀ a, l.getLast? = some a → isPySpace a = false) :
    pyStripL l = l := by
  have hfront : l.dropWhile isPySpace = l := by
    cases l with
    | nil => rfl
    | cons c t => rw [List.dropWhile_cons, if_neg (by simp [h1 c rfl])]
  have hback : l.reverse.dropWhile isPySpace = l.reverse := by
    cases hr : l.reverse with
    | nil => rfl
    | cons a t =>
      rw [List.dropWhile_cons, if_neg]
      have : l.getLast? = some a := by
        rw [← List.head?_reverse, hr]
        rfl
      simp [h2 a this]
  unfold pyStripL
  rw [hfront, hback, List.reverse_reverse]

/-- The closing fence makes a backtick the last character. -/
theorem getLast_of_fence_tail (X : List Char) :
    (X ++ '\n' :: [btick, btick, btick]).getLast? = some btick := by
  rw [show '\n' :: [btick, btick, btick] =
    ['\n', btick, btick] ++ [btick] from rfl, ← List.append_assoc,
    List.getLast?_concat]

/-- Stripping whitespace and then trailing semicolons from a list
beginning with `SELECT` keeps the `SELECT` head and leaves no
semicolon at the end. -/
theorem select_strip_rstrip (M : List Char) :
    ∃ u, rstripSemi (pyStripL (selectHead ++ M)) = selectHead ++ u ∧
      (selectHead ++ u).getLast? ≠ some ';' := by
  have hfront : (selectHead ++ M).dropWhile isPySpace = selectHead ++ M := by
    rw [show selectHead ++ M = 'S' :: (['E', 'L', 'E', 'C', 'T'] ++ M) from rfl,
      List.dropWhile_cons, if_neg (by decide)]
  have hrev : (selectHead ++ M).reverse =
      M.reverse ++ 'T' :: ['C', 'E', 'L', 'E', 'S'] := by
    rw [List.reverse_append]
    rfl
  have h1 : (selectHead ++ M).reverse.dropWhile isPySpace =
      M.reverse.dropWhile isPySpace ++ 'T' :: ['C', 'E', 'L', 'E', 'S'] := by
    rw [hrev, dropWhile_append_head _ _ _ (by decide)]
  have hstrip : pyStripL (selectHead ++ M) =
      selectHead ++ (M.reverse.dropWhile isPySpace).reverse := by
    unfold pyStripL
    rw [hfront, h1, List.reverse_append]
    rfl
  have hrev2 : (selectHead ++ (M.reverse.dropWhile isPySpace).reverse).reverse =
      M.reverse.dropWhile isPySpace ++ 'T' :: ['C', 'E', 'L', 'E', 'S'] := by
    rw [List.reverse_append, List.reverse_reverse]
    rfl
  have h2 : (selectHead ++ (M.reverse.dropWhile isPySpace).reverse).reverse.dropWhile
        (fun c => c == ';') =
      (M.reverse.dropWhile isPySpace).dropWhile (fun c => c == ';') ++
        'T' :: ['C', 'E', 'L', 'E', 'S'] := by
    rw [hrev2, dropWhile_append_head _ _ _ (by decide)]
  have hrstrip : rstripSemi (selectHead ++ (M.reverse.dropWhile isPySpace).reverse) =
      selectHead ++
        ((M.reverse.dropWhile isPySpace).dropWhile (fun c => c == ';')).reverse := by
    unfold rstripSemi
    rw [h2, List.reverse_append]
    rfl
  refine ⟨((M.reverse.dropWhile isPySpace).dropWhile (fun c => c == ';')).reverse,
    by rw [hstrip, hrstrip], ?_⟩
  cases hz : (M.reverse.dropWhile isPySpace).dropWhile (fun c => c == ';') with
  | nil => decide
  | cons a z =>
    have ha : (fun c => c == ';') a = false := dropWhile_head_not _ a z hz
    rw [show (a :: z).reverse = z.reverse ++ [a] from by simp,
      show selectHead ++ (z.reverse ++ [a]) =
        (selectHead ++ z.reverse) ++ [a] from by rw [List.append_assoc],
      List.getLast?_concat]
    simp only [beq_eq_false_iff_ne, ne_eq] at ha
    simp [ha]

/-- No character of the fenced statement body (keyword, tail,
semicolons, final newline) is a backtick. -/
theorem no_btick_bodyA (t : List Char) (k : Nat)
    (ht : ∀ c ∈ t, c ≠ btick) :
    ∀ c ∈ (selectHead ++ t) ++ List.replicate k ';' ++ ['\n'],
      c ≠ btick := by
  intro c hc
  rcases List.mem_append.mp hc with h | h
  · rcases List.mem_append.mp h with h | h
    · rcases List.mem_append.mp h with h | h
      · simp only [selectHead, List.mem_cons, List.not_mem_nil, or_false] at h
        rcases h with rfl | rfl | rfl | rfl | rfl | rfl <;> decide
      · exact ht c h
    · rw [List.mem_replicate] at h
      rw [h.2]
      decide
  · simp only [List.mem_singleton] at h
    rw [h]
    decide

/-- The `` ```sql `` pass leaves the fenced statement body (with its
closing fence) untouched. -/
theorem subSqlFence_body_id (t : List Char) (k : Nat)
    (ht : ∀ c ∈ t, c ≠ btick) :
    subSqlFence ((selectHead ++ t) ++ List.replicate k ';' ++
        '\n' :: [btick, btick, btick]) =
      (selectHead ++ t) ++ List.replicate k ';' ++
        '\n' :: [btick, btick, btick] := by
  have hsh : (selectHead ++ t) ++ List.replicate k ';' ++
      '\n' :: [btick, btick, btick] =
      ((selectHead ++ t) ++ List.replicate k ';' ++ ['\n']) ++
        [btick, btick, btick] := by
    simp [List.append_assoc]
  rw [hsh, subSqlFence_append _ _ (no_btick_bodyA t k ht),
    show subSqlFence [btick, btick, btick] = [btick, btick, btick] from
      by decide]

/-- The bare-fence pass deletes the closing fence of the statement
body and keeps everything before it. -/
theorem subFence_body_to_stripped (t : List Char) (k : Nat)
    (ht : ∀ c ∈ t, c ≠ btick) :
    subFence ((selectHead ++ t) ++ List.replicate k ';' ++
        '\n' :: [btick, btick, btick]) =
      (selectHead ++ t) ++ List.replicate k ';' ++ ['\n'] := by
  have hsh : (selectHead ++ t) ++ List.replicate k ';' ++
      '\n' :: [btick, btick, btick] =
      ((selectHead ++ t) ++ List.replicate k ';' ++ ['\n']) ++
        [btick, btick, btick] := by
    simp [List.append_assoc]
  rw [hsh, subFence_append _ _ (no_btick_bodyA t k ht),
    show subFence [btick, btick, btick] = [] from by decide,
    List.append_nil]

/-- The whitespace consumption after an opening fence eats the
newline and stops at the `S` of `SELECT`. -/
theorem dropWS_newline_body (t : List Char) (k : Nat) :
    dropWS ('\n' :: ((selectHead ++ t) ++ List.replicate k ';' ++
        '\n' :: [btick, btick, btick])) =
      (selectHead ++ t) ++ List.replicate k ';' ++
        '\n' :: [btick, btick, btick] := by
  unfold dropWS
  rw [List.dropWhile_cons, if_pos (by decide),
    show (selectHead ++ t) ++ List.replicate k ';' ++
        '\n' :: [btick, btick, btick] =
      'S' :: ((['E', 'L', 'E', 'C', 'T'] ++ t) ++
        List.replicate k ';' ++ '\n' :: [btick, btick, btick]) from rfl,
    List.dropWhile_cons, if_neg (by decide)]

/-- Packaging step: once the two fence passes have reduced the raw
completion to the bare statement body followed by one newline, the
final strip and semicolon normalization yield a statement that starts
with `SELECT` and ends with exactly one semicolon. -/
theorem pySanitize_of_fence_chain (t : List Char) (k : Nat) (raw : String)
    (h2 : subFence (subSqlFence (pyStripL raw.data)) =
      (selectHead ++ t) ++ List.replicate k ';' ++ ['\n']) :
    startsWithSELECT (pySanitize raw) ∧ endsWithOneSemi (pySanitize raw) := by
  obtain ⟨u, hu, hlast⟩ :=
    select_strip_rstrip (t ++ List.replicate k ';' ++ ['\n'])
  have hdata : (pySanitize raw).data = (selectHead ++ u) ++ [';'] := by
    show rstripSemi (pyStripL (subFence (subSqlFence (pyStripL raw.data))))
        ++ [';'] = _
    rw [h2,
      show (selectHead ++ t) ++ List.replicate k ';' ++ ['\n'] =
        selectHead ++ (t ++ List.replicate k ';' ++ ['\n']) from
        by simp [List.append_assoc],
      hu]
  constructor
  · exact ⟨u ++ [';'], by rw [hdata, List.append_assoc]⟩
  · exact ⟨selectHead ++ u, hdata, hlast⟩

/-- The two fence passes on a statement wrapped in a fence with a
(case-insensitive) `sql` language tag. -/
theorem fence_chain_tagged (d e f : Char) (t : List Char) (k : Nat)
    (hd : d.toLower = 's') (he : e.toLower = 'q') (hf : f.toLower = 'l')
    (ht : ∀ c ∈ t, c ≠ btick) :
    subFence (subSqlFence (pyStripL (fencedTagged d e f t k).data)) =
      (selectHead ++ t) ++ List.replicate k ';' ++ ['\n'] := by
  have hstrip0 : pyStripL (fencedTagged d e f t k).data =
      (fencedTagged d e f t k).data := by
    apply pyStripL_eq_self
    · intro a ha
      rw [show (fencedTagged d e f t k).data.head? = some btick from rfl] at ha
      cases ha
      decide
    · intro a ha
      rw [show (fencedTagged d e f t k).data =
        ([btick, btick, btick, d, e, f, '\n'] ++
          ((selectHead ++ t) ++ List.replicate k ';')) ++
          '\n' :: [btick, btick, btick] from by
            simp [fencedTagged, List.append_assoc],
        getLast_of_fence_tail] at ha
      cases ha
      decide
  rw [hstrip0,
    show (fencedTagged d e f t k).data =
      btick :: btick :: btick :: d :: e :: f ::
        ('\n' :: ((selectHead ++ t) ++ List.replicate k ';' ++
          '\n' :: [btick, btick, btick])) from rfl,
    subSqlFence_fence_step d e f _ hd he hf,
    show dropWS ('\n' :: ((selectHead ++ t) ++ List.replicate k ';' ++
        '\n' :: [btick, btick, btick])) =
      (selectHead ++ t) ++ List.replicate k ';' ++
        '\n' :: [btick, btick, btick] from dropWS_newline_body t k,
    subSqlFence_body_id t k ht]
  exact subFence_body_to_stripped t k ht

/-- The two fence passes on a statement wrapped in a bare fence. -/
theorem fence_chain_bare (t : List Char) (k : Nat)
    (ht : ∀ c ∈ t, c ≠ btick) :
    subFence (subSqlFence (pyStripL (fencedBare t k).data)) =
      (selectHead ++ t) ++ List.replicate k ';' ++ ['\n'] := by
  have hstrip0 : pyStripL (fencedBare t k).data =
      (fencedBare t k).data := by
    apply pyStripL_eq_self
    · intro a ha
      rw [show (fencedBare t k).data.head? = some btick from rfl] at ha
      cases ha
      decide
    · intro a ha
      rw [show (fencedBare t k).data =
        ([btick, btick, btick, '\n'] ++
          ((selectHead ++ t) ++ List.replicate k ';')) ++
          '\n' :: [btick, btick, btick] from by
            simp [fencedBare, List.append_assoc],
        getLast_of_fence_tail] at ha
      cases ha
      decide
  rw [hstrip0,
    show (fencedBare t k).data =
      btick :: btick :: btick :: '\n' :: 'S' :: 'E' ::
        ('L' :: 'E' :: 'C' :: 'T' ::
          (t ++ List.replicate k ';' ++ '\n' :: [btick, btick, btick])) from
      by simp [fencedBare, selectHead, List.append_assoc],
    subSqlFence_cons_of_not_sql btick btick btick '\n' 'S' 'E' _
      (fun hcon => absurd hcon.2.2.2.1 (by decide)),
    subSqlFence_cons_of_not_sql btick btick '\n' 'S' 'E' 'L' _
      (fun hcon => absurd hcon.2.2.1 (by decide)),
    subSqlFence_cons_of_not_sql btick '\n' 'S' 'E' 'L' 'E' _
      (fun hcon => absurd hcon.2.1 (by decide)),
    subSqlFence_cons '\n' _ (by decide),
    show 'S' :: 'E' :: ('L' :: 'E' :: 'C' :: 'T' ::
        (t ++ List.replicate k ';' ++ '\n' :: [btick, btick, btick])) =
      (selectHead ++ t) ++ List.replicate k ';' ++
        '\n' :: [btick, btick, btick] from by
      simp [selectHead, List.append_assoc],
    subSqlFence_body_id t k ht,
    subFence_fence_step,
    show dropWS ('\n' :: ((selectHead ++ t) ++ List.replicate k ';' ++
        '\n' :: [btick, btick, btick])) =
      (selectHead ++ t) ++ List.replicate k ';' ++
        '\n' :: [btick, btick, btick] from dropWS_newline_body t k]
  exact subFence_body_to_stripped t k ht

/-- Counterexample to C6 as stated: a `SELECT` statement wrapped in a
code fence with the language tag `python` and two trailing
semicolons.  The sanitizer only deletes `` ```sql `` and bare
`` ``` `` markers, so the tag text survives and the output does not
start with `SELECT` (the claimed round-trip fails for fences with a
language tag other than `sql`). -/
theorem c6_language_tag_counterexample :
    pySanitize "```python\nSELECT 1;;\n```" = "python\nSELECT 1;" ∧
    pyStartsWith (pySanitize "```python\nSELECT 1;;\n```") "SELECT" =
      false := by
  decide

/-- C6 (amended): for every drafted `SELECT` statement (backtick-free
body) wrapped in code fences whose opening carries the `sql` language
tag in any letter case, or no tag at all, and carrying any number of
trailing semicolons, the sanitizer output starts with `SELECT` and
ends with exactly one semicolon. -/
theorem c6_sanitizer_roundtrip_amended (d e f : Char) (t : List Char)
    (k : Nat) (hd : d.toLower = 's') (he : e.toLower = 'q')
    (hf : f.toLower = 'l') (ht : ∀ c ∈ t, c ≠ btick) :
    (startsWithSELECT (pySanitize (fencedTagged d e f t k)) ∧
      endsWithOneSemi (pySanitize (fencedTagged d e f t k))) ∧
    (startsWithSELECT (pySanitize (fencedBare t k)) ∧
      endsWithOneSemi (pySanitize (fencedBare t k))) :=
  ⟨pySanitize_of_fence_chain t k _ (fence_chain_tagged d e f t k hd he hf ht),
   pySanitize_of_fence_chain t k _ (fence_chain_bare t k ht)⟩

/-- Witness for C6 (amended): the statement `SELECT 1` with two
trailing semicolons inside an `SQL`-tagged fence and inside a bare
fence. -/
theorem c6_sanitizer_roundtrip_witness :
    startsWithSELECT (pySanitize (fencedTagged 'S' 'Q' 'L' (" 1".data) 2)) ∧
    endsWithOneSemi (pySanitize (fencedBare (" 1".data) 2)) := by
  have h := c6_sanitizer_roundtrip_amended 'S' 'Q' 'L' (" 1".data) 2
    (by decide) (by decide) (by decide) (by decide)
  exact ⟨h.1.1, h.2.2⟩
